import Mathlib

/-!
Shallow embedding of `src/adapy/src/adapy/ros_control.py`.

A Python object is modelled as a record `Obj` whose fields correspond to the
instance attributes the source assigns.  An attribute that a constructor may
leave unset is an `Option` (`none` = the attribute is absent, so that reading
it raises `AttributeError`); this matters because `TrajectoryFuture.__init__`
never calls `Future.__init__`, and because `Future.__init__` never assigns
`self._exception`.  Methods are state-passing functions; a raised Python
exception is an `Except.error` carrying the exception kind together with the
state the object is left in (Python does not roll back attribute writes made
before a raise).  Callbacks are opaque identifiers; invoking a callback is
recorded in a trace list rather than interpreted, and a callback's own effects
on the future are outside the model (the source catches and logs anything a
callback raises).  `Condition.wait` with a finite timeout always returns and
does not change the object, so blocking retrieval is modelled as a function of
the state the object has when the wait returns.
-/

/-- The `actionlib.CommState` constants. -/
inductive CommState where
  | WAITING_FOR_GOAL_ACK
  | PENDING
  | ACTIVE
  | WAITING_FOR_RESULT
  | WAITING_FOR_CANCEL_ACK
  | RECALLING
  | PREEMPTING
  | DONE
  | LOST
  deriving DecidableEq

/-- The `actionlib.TerminalState` constants. -/
inductive TerminalState where
  | RECALLED
  | REJECTED
  | PREEMPTED
  | ABORTED
  | SUCCEEDED
  | LOST
  deriving DecidableEq

/-- One `JointTrajectoryPoint`: a payload of positions plus its
`time_from_start` offset. -/
structure TrajPoint where
  positions : List Int
  time_from_start : Int
  deriving DecidableEq

/-- A `trajectory_msgs/JointTrajectory`: joint names, the header stamp (`0` is
the default ROS time, which is falsy), and the list of points. -/
structure JointTrajectory where
  joint_names : List String
  header_stamp : Int
  points : List TrajPoint
  deriving DecidableEq

/-- The part of a `FollowJointTrajectoryFeedback` message that `on_feedback`
reads: the header stamp and the `actual` point. -/
structure FeedbackMsg where
  header_stamp : Int
  actual : TrajPoint
  deriving DecidableEq

/-- A `FollowJointTrajectoryResult`: `error_code` and `error_string`. -/
structure ActionResult where
  error_code : Int
  error_string : String
  deriving DecidableEq

/-- The constant `control_msgs.msg.FollowJointTrajectoryResult.SUCCESSFUL`. -/
def ActionResult.SUCCESSFUL : Int := 0

/-- The view of an actionlib `ClientGoalHandle` that `on_transition` consumes:
`get_state()`, `get_terminal_state()`, `get_result()` and
`get_goal_status_text()`. -/
structure GoalHandle where
  state : CommState
  terminal_state : TerminalState
  result : ActionResult
  status_text : String
  deriving DecidableEq

/-- Names of instance attributes, used to report precise `AttributeError`s. -/
inductive Attr where
  | lock
  | condition
  | is_done
  | is_error
  | is_cancelled
  | handle
  | result
  | exception
  | callbacks
  | prev_state
  | traj_requested
  | traj_executed
  | goal_status_text
  deriving DecidableEq

/-- The Python exceptions the embedded code can raise or store.  Exceptions
stored via `set_exception` are opaque identifiers wrapped by `raised`. -/
inductive PyErr where
  | attributeError (a : Attr)
  | nameError
  | typeError
  | internalError
  | timeoutError
  | cancelledError
  | notImplementedError
  | raised (e : Nat)
  deriving DecidableEq

/-- The attribute state of a `Future`/`TrajectoryFuture` instance.  `lock` and
`condition` record whether `self.lock` / `self._condition` exist (they are
created only by `Future.__init__`).  The `Option`-typed fields are `none`
while the attribute does not exist; where Python `None` is itself a possible
value the payload is a further `Option`. -/
structure Obj where
  lock : Bool
  condition : Bool
  is_done : Option Bool
  is_error : Option Bool
  is_cancelled : Option Bool
  handle : Option (Option GoalHandle)
  result : Option (Option JointTrajectory)
  exception : Option (Option Nat)
  callbacks : Option (List Nat)
  prev_state : Option CommState
  traj_requested : Option JointTrajectory
  traj_executed : Option JointTrajectory
  deriving DecidableEq

/-- Result of running a method: the returned value or raised exception, the
state the object is left in, and the callbacks the method invoked, in order. -/
structure MRes (α : Type) where
  res : Except PyErr α
  st : Obj
  calls : List Nat

/-- `Future.__init__`: creates the lock and the condition variable and
initializes `_is_done`, `_is_error`, `_is_cancelled`, `_handle`, `_result` and
`_callbacks`; it never assigns `self._exception`. -/
def Future.init : Obj where
  lock := true
  condition := true
  is_done := some false
  is_error := some false
  is_cancelled := some false
  handle := some none
  result := some none
  exception := none
  callbacks := some []
  prev_state := none
  traj_requested := none
  traj_executed := none

/-- `Future.done`: `with self.lock: return self._is_done`. -/
def Future.done (s : Obj) : Except PyErr Bool :=
  if s.lock then
    match s.is_done with
    | none => .error (.attributeError .is_done)
    | some b => .ok b
  else .error (.attributeError .lock)

/-- `Future.cancel` as written in src: `raise NotImplementedError` — an
abstract declaration that `TrajectoryFuture` never overrides. -/
def Future.cancel (s : Obj) : MRes Unit :=
  ⟨.error .notImplementedError, s, []⟩

/-- `Future.cancelled`: `self._is_done and self._is_cancelled`, with Python
short-circuiting of `and`. -/
def Future.cancelled (s : Obj) : Except PyErr Bool :=
  if s.lock then
    match s.is_done with
    | none => .error (.attributeError .is_done)
    | some false => .ok false
    | some true =>
      match s.is_cancelled with
      | none => .error (.attributeError .is_cancelled)
      | some c => .ok c
  else .error (.attributeError .lock)

/-- `Future.result(timeout)` for a finite timeout, evaluated in the state the
object has when `self._condition.wait(timeout)` returns (the wait itself never
modifies the object; with a finite timeout it always returns, so the call does
not block indefinitely).  Note the source waits unconditionally and then tests
`_is_done`, `_is_cancelled`, `_exception` and `_result` in that order. -/
def Future.result (s : Obj) : Except PyErr (Option JointTrajectory) :=
  if s.lock then
    match s.is_done with
    | none => .error (.attributeError .is_done)
    | some false => .error .timeoutError
    | some true =>
      match s.is_cancelled with
      | none => .error (.attributeError .is_cancelled)
      | some true => .error .cancelledError
      | some false =>
        match s.exception with
        | none => .error (.attributeError .exception)
        | some (some e) => .error (.raised e)
        | some none =>
          match s.result with
          | none => .error (.attributeError .result)
          | some r => .ok r
  else .error (.attributeError .lock)

/-- `Future._set_done`: under the lock, raise `InternalError` if already done,
otherwise flag done, snapshot the callback list, notify the condition
variable, and then (outside the lock) invoke every snapshotted callback. -/
def Future.set_done (s : Obj) : MRes Unit :=
  if s.lock then
    match s.is_done with
    | none => ⟨.error (.attributeError .is_done), s, []⟩
    | some true => ⟨.error .internalError, s, []⟩
    | some false =>
      let s1 : Obj := { s with is_done := some true }
      match s1.callbacks with
      | none => ⟨.error (.attributeError .callbacks), s1, []⟩
      | some cbs =>
        if s1.condition then ⟨.ok (), s1, cbs⟩
        else ⟨.error (.attributeError .condition), s1, []⟩
  else ⟨.error (.attributeError .lock), s, []⟩

/-- `Future.set_result`: assigns `self._result`, then calls `_set_done`. -/
def Future.set_result (s : Obj) (v : JointTrajectory) : MRes Unit :=
  Future.set_done { s with result := some (some v) }

/-- `Future.set_cancelled`: assigns `self._is_cancelled = True`, then calls
`_set_done`. -/
def Future.set_cancelled (s : Obj) : MRes Unit :=
  Future.set_done { s with is_cancelled := some true }

/-- `Future.set_exception`: assigns `self._exception`, then calls
`_set_done`. -/
def Future.set_exception (s : Obj) (e : Nat) : MRes Unit :=
  Future.set_done { s with exception := some (some e) }

/-- `Future.add_done_callback` exactly as written in src: when the future is
already done the callback is appended after a duplicate check and `do_call`
is set `False`; when it is still pending `do_call` is set `True`, so the lock
is released and the callback is invoked immediately without being recorded. -/
def Future.add_done_callback (s : Obj) (fn : Nat) : MRes Unit :=
  if s.lock then
    match s.is_done with
    | none => ⟨.error (.attributeError .is_done), s, []⟩
    | some true =>
      match s.callbacks with
      | none => ⟨.error (.attributeError .callbacks), s, []⟩
      | some cbs =>
        if fn ∈ cbs then ⟨.error .internalError, s, []⟩
        else ⟨.ok (), { s with callbacks := some (cbs ++ [fn]) }, []⟩
    | some false => ⟨.ok (), s, [fn]⟩
  else ⟨.error (.attributeError .lock), s, []⟩

/-- `TrajectoryFuture.__init__(traj_requested)`: sets `_prev_state` to
`CommState.PENDING`, `_traj_requested` to a deepcopy of the argument, and
`_traj_executed` to an empty `JointTrajectory` sharing the joint names.  It
never calls `Future.__init__`, so no base attribute exists. -/
def TrajectoryFuture.init (traj : JointTrajectory) : Obj where
  lock := false
  condition := false
  is_done := none
  is_error := none
  is_cancelled := none
  handle := none
  result := none
  exception := none
  callbacks := none
  prev_state := some CommState.PENDING
  traj_requested := some traj
  traj_executed := some { joint_names := traj.joint_names, header_stamp := 0, points := [] }

/-- `TrajectoryFuture.partial_result`: a deepcopy of `_traj_executed` taken
under `self.lock`. -/
def TrajectoryFuture.partial_result (s : Obj) : Except PyErr JointTrajectory :=
  if s.lock then
    match s.traj_executed with
    | none => .error (.attributeError .traj_executed)
    | some t => .ok t
  else .error (.attributeError .lock)

/-- The update `on_feedback` performs on `_traj_executed`: when the header
stamp is still falsy it is set to `msg.header.stamp -
msg.actual.time_from_start`, and then `msg.actual` is appended to the
points. -/
def feedUpdate (t : JointTrajectory) (msg : FeedbackMsg) : JointTrajectory :=
  let t1 := if t.header_stamp = 0 then
      { t with header_stamp := msg.header_stamp - msg.actual.time_from_start }
    else t
  { t1 with points := t1.points ++ [msg.actual] }

/-- `TrajectoryFuture.on_feedback`: under `self.lock`, applies `feedUpdate`
to `_traj_executed`.  There is no completion-state check of any kind in the
body. -/
def TrajectoryFuture.on_feedback (s : Obj) (msg : FeedbackMsg) : MRes Unit :=
  if s.lock then
    match s.traj_executed with
    | none => ⟨.error (.attributeError .traj_executed), s, []⟩
    | some t => ⟨.ok (), { s with traj_executed := some (feedUpdate t msg) }, []⟩
  else ⟨.error (.attributeError .lock), s, []⟩

/-- `TrajectoryFuture._on_done`.  The two failure branches construct a
`TrajectoryExecutionFailed` whose `executed` keyword argument is the bare call
`partial_result()`; no global of that name exists (it is a method), so
evaluating that argument raises `NameError` before `set_exception` can run.
In the last branch the format arguments are evaluated first, so the read of
`self._handle` (and the method call on it) happens before the `NameError`;
reading a method of Python `None` is itself an `AttributeError`.  Note the
branch condition `terminal_state not in [PREEMPTED, RECALLED]` guarding
`set_cancelled`. -/
def TrajectoryFuture.on_done (s : Obj) (terminal_state : TerminalState)
    (res : ActionResult) : MRes Unit :=
  if terminal_state = TerminalState.SUCCEEDED then
    if res.error_code = ActionResult.SUCCESSFUL then
      match s.traj_executed with
      | none => ⟨.error (.attributeError .traj_executed), s, []⟩
      | some t => Future.set_result s t
    else ⟨.error .nameError, s, []⟩
  else if terminal_state ∉ [TerminalState.PREEMPTED, TerminalState.RECALLED] then
    Future.set_cancelled s
  else
    match s.handle with
    | none => ⟨.error (.attributeError .handle), s, []⟩
    | some none => ⟨.error (.attributeError .goal_status_text), s, []⟩
    | some (some _) => ⟨.error .nameError, s, []⟩

/-- `TrajectoryFuture.on_transition`: reads `handle.get_state()`, passes when
the state equals `_prev_state`, runs `_on_done` when the new state is
`CommState.DONE`, and then assigns `self._prev_state = state` — an assignment
that is skipped whenever `_on_done` raises, because the exception propagates
first. -/
def TrajectoryFuture.on_transition (s : Obj) (hdl : GoalHandle) : MRes Unit :=
  match s.prev_state with
  | none => ⟨.error (.attributeError .prev_state), s, []⟩
  | some prev =>
    if hdl.state = prev then ⟨.ok (), { s with prev_state := some hdl.state }, []⟩
    else if hdl.state = CommState.DONE then
      match TrajectoryFuture.on_done s hdl.terminal_state hdl.result with
      | ⟨Except.ok _, s1, c⟩ => ⟨.ok (), { s1 with prev_state := some hdl.state }, c⟩
      | ⟨Except.error e, s1, c⟩ => ⟨.error e, s1, c⟩
    else ⟨.ok (), { s with prev_state := some hdl.state }, []⟩

/-- `FollowJointTrajectoryClient.execute`: constructs
`TrajectoryFuture(traj_msg)` and assigns the goal handle returned by
`send_goal` to `traj_future._handle`. -/
def FollowJointTrajectoryClient.execute (traj : JointTrajectory) (hdl : GoalHandle) : Obj :=
  { TrajectoryFuture.init traj with handle := some (some hdl) }

/-- `TrajectoryMode.running`: whether the queue of running trajectories is
non-empty. -/
def TrajectoryMode.running (q : List Obj) : Bool :=
  !q.isEmpty

/-- `TrajectoryMode.execute_ros_trajectory`: after building the goal message,
the next statement is `traj_future = TrajectoryFuture()`;
`TrajectoryFuture.__init__` requires the positional argument
`traj_requested`, so the call raises `TypeError` before anything is sent,
queued, or registered.  (The subsequent statements would additionally name
the nonexistent attributes `_transition_callback` and `_feedback_callback`.)
The returned pair is the raised error together with the untouched queue. -/
def TrajectoryMode.execute_ros_trajectory (q : List Obj) (_traj : JointTrajectory) :
    Except PyErr Obj × List Obj :=
  (.error .typeError, q)

/-- Result of the spec-modelled `cancel`: the returned value or error, the
(never synchronously changed) object state, and whether a cancel request was
forwarded to the dispatcher. -/
structure CancelRes where
  res : Except PyErr Bool
  st : Obj
  forwarded : Bool

/-- Modelled from the spec: `TrajectoryExecution.cancel` is missing from src —
`Future.cancel` there is only the abstract declaration
`raise NotImplementedError('Cancelling is not supported.')` and
`TrajectoryFuture` does not override it.  Following spec §4.3: fail with
`InternalError` when the correlation handle is absent; return `true`
idempotently when the state is already Cancelled (done and cancelled flags
both set); return `false` when already done but not cancelled; otherwise
forward a cancel request through the handle and return `true`.  Cancellation
is advisory: the object's state is never changed synchronously. -/
def TrajectoryFuture.cancel (s : Obj) : CancelRes :=
  match s.handle with
  | none => ⟨.error .internalError, s, false⟩
  | some none => ⟨.error .internalError, s, false⟩
  | some (some _) =>
    if s.is_done = some true then
      if s.is_cancelled = some true then ⟨.ok true, s, false⟩
      else ⟨.ok false, s, false⟩
    else ⟨.ok true, s, true⟩

/-- Any object in the shape `Future.__init__` leaves the base attributes:
lock, condition variable and callback list present, all remaining attributes
arbitrary. -/
def baseFut (ido ie ic : Option Bool) (hd : Option (Option GoalHandle))
    (r : Option (Option JointTrajectory)) (ex : Option (Option Nat))
    (cbs : List Nat) (ps : Option CommState) (tr te : Option JointTrajectory) : Obj where
  lock := true
  condition := true
  is_done := ido
  is_error := ie
  is_cancelled := ic
  handle := hd
  result := r
  exception := ex
  callbacks := some cbs
  prev_state := ps
  traj_requested := tr
  traj_executed := te

/-- A concrete requested trajectory used by witnesses. -/
def trajW : JointTrajectory :=
  { joint_names := ["j1", "j2", "j3"], header_stamp := 0, points := [] }

/-- A concrete goal handle in the PENDING protocol state. -/
def hW : GoalHandle :=
  { state := CommState.PENDING, terminal_state := TerminalState.SUCCEEDED,
    result := { error_code := 0, error_string := "" }, status_text := "" }

/-- A concrete goal handle in the ACTIVE protocol state. -/
def hAW : GoalHandle :=
  { state := CommState.ACTIVE, terminal_state := TerminalState.SUCCEEDED,
    result := { error_code := 0, error_string := "" }, status_text := "" }

/-- C1: `add_done_callback` behaves opposite to the claim: on a still-pending
Future the callback is invoked immediately (trace `[fn]`) and never recorded,
so it cannot fire again at completion; on an already-done Future it is
recorded in the callback list but not invoked before returning. -/
theorem addDoneCallback_inverted (t : JointTrajectory) (fn : Nat) :
    Future.add_done_callback Future.init fn = ⟨.ok (), Future.init, [fn]⟩
    ∧ (Future.set_result Future.init t).st.is_done = some true
    ∧ Future.add_done_callback (Future.set_result Future.init t).st fn
        = ⟨.ok (), { (Future.set_result Future.init t).st with callbacks := some [fn] }, []⟩ :=
  ⟨rfl, rfl, rfl⟩

/-- C2: on a transition to the terminal DONE protocol state, the code routes
PREEMPTED and RECALLED to the error-construction branch (which raises
`NameError` on the bare `partial_result()` call, so not even an
`ExecutionFailed` is stored and the state is unchanged), while a terminal
state such as ABORTED — which the claim says must produce an
`ExecutionFailed` error — is routed to `set_cancelled`, whose cancelled flag
is set before `_set_done` fails on the missing lock. -/
theorem onDone_preempted_inverted (traj : JointTrajectory) (h0 : GoalHandle)
    (ec : Int) (es stx : String) :
    (TrajectoryFuture.on_transition (FollowJointTrajectoryClient.execute traj h0)
        ⟨CommState.DONE, TerminalState.PREEMPTED, ⟨ec, es⟩, stx⟩).res = .error .nameError
    ∧ (TrajectoryFuture.on_transition (FollowJointTrajectoryClient.execute traj h0)
        ⟨CommState.DONE, TerminalState.PREEMPTED, ⟨ec, es⟩, stx⟩).st
        = FollowJointTrajectoryClient.execute traj h0
    ∧ (TrajectoryFuture.on_transition (FollowJointTrajectoryClient.execute traj h0)
        ⟨CommState.DONE, TerminalState.RECALLED, ⟨ec, es⟩, stx⟩).res = .error .nameError
    ∧ (TrajectoryFuture.on_transition (FollowJointTrajectoryClient.execute traj h0)
        ⟨CommState.DONE, TerminalState.ABORTED, ⟨ec, es⟩, stx⟩).res
        = .error (.attributeError .lock)
    ∧ (TrajectoryFuture.on_transition (FollowJointTrajectoryClient.execute traj h0)
        ⟨CommState.DONE, TerminalState.ABORTED, ⟨ec, es⟩, stx⟩).st.is_cancelled
        = some true :=
  ⟨rfl, rfl, rfl, rfl, rfl⟩

/-- C3: `result` on a pending Future raises Timeout, on a cancelled Future
raises Cancelled, and on a failed Future raises the stored error — but on a
Future completed with `set_result` it raises `AttributeError` on the
never-initialized `_exception` attribute instead of returning the stored
result, contradicting its own docstring. -/
theorem result_missing_exception_attr (t : JointTrajectory) (e : Nat) :
    Future.result Future.init = .error .timeoutError
    ∧ Future.result (Future.set_cancelled Future.init).st = .error .cancelledError
    ∧ Future.result (Future.set_exception Future.init e).st = .error (.raised e)
    ∧ (Future.set_result Future.init t).res = .ok ()
    ∧ Future.result (Future.set_result Future.init t).st
        = .error (.attributeError .exception) :=
  ⟨rfl, rfl, rfl, rfl, rfl⟩

/-- C4: on any Future with the base attributes present and the done flag
clear, each completion primitive succeeds and marks the Future done; on any
such Future whose done flag is already set — in particular on the state a
successful `set_result` leaves — every completion primitive signals
`InternalError`. -/
theorem future_completes_exactly_once
    (ie ic : Option Bool) (hd : Option (Option GoalHandle))
    (r : Option (Option JointTrajectory)) (ex : Option (Option Nat))
    (cbs : List Nat) (ps : Option CommState) (tr te : Option JointTrajectory)
    (v : JointTrajectory) (e : Nat) :
    (Future.set_result (baseFut (some false) ie ic hd r ex cbs ps tr te) v).res = .ok ()
    ∧ (Future.set_result (baseFut (some false) ie ic hd r ex cbs ps tr te) v).st.is_done
        = some true
    ∧ (Future.set_cancelled (baseFut (some false) ie ic hd r ex cbs ps tr te)).res = .ok ()
    ∧ (Future.set_cancelled (baseFut (some false) ie ic hd r ex cbs ps tr te)).st.is_done
        = some true
    ∧ (Future.set_exception (baseFut (some false) ie ic hd r ex cbs ps tr te) e).res = .ok ()
    ∧ (Future.set_exception (baseFut (some false) ie ic hd r ex cbs ps tr te) e).st.is_done
        = some true
    ∧ (Future.set_result (baseFut (some true) ie ic hd r ex cbs ps tr te) v).res
        = .error .internalError
    ∧ (Future.set_cancelled (baseFut (some true) ie ic hd r ex cbs ps tr te)).res
        = .error .internalError
    ∧ (Future.set_exception (baseFut (some true) ie ic hd r ex cbs ps tr te) e).res
        = .error .internalError
    ∧ (Future.set_cancelled
        ((Future.set_result (baseFut (some false) ie ic hd r ex cbs ps tr te) v).st)).res
        = .error .internalError :=
  ⟨rfl, rfl, rfl, rfl, rfl, rfl, rfl, rfl, rfl, rfl⟩

/-- C5: `on_feedback` on any TrajectoryFuture the source can construct raises
`AttributeError` at `with self.lock` (the lock never exists), and on a state
whose base attributes are present and whose done flag is set it still appends
the sample: the body has no terminal-state guard, so `executed` is not frozen
after completion. -/
theorem onFeedback_no_terminal_guard (traj te : JointTrajectory) (h0 : GoalHandle)
    (msg : FeedbackMsg) (ie ic : Option Bool) (hd : Option (Option GoalHandle))
    (r : Option (Option JointTrajectory)) (ex : Option (Option Nat))
    (cbs : List Nat) (ps : Option CommState) (tr : Option JointTrajectory) :
    TrajectoryFuture.on_feedback (FollowJointTrajectoryClient.execute traj h0) msg
      = ⟨.error (.attributeError .lock), FollowJointTrajectoryClient.execute traj h0, []⟩
    ∧ (TrajectoryFuture.on_feedback
        (baseFut (some true) ie ic hd r ex cbs ps tr (some te)) msg).res = .ok ()
    ∧ (TrajectoryFuture.on_feedback
        (baseFut (some true) ie ic hd r ex cbs ps tr (some te)) msg).st.traj_executed
        = some (feedUpdate te msg)
    ∧ (feedUpdate te msg).points = te.points ++ [msg.actual] := by
  refine ⟨rfl, rfl, rfl, ?_⟩
  unfold feedUpdate
  by_cases hst : te.header_stamp = 0 <;> simp [hst]

/-- C6: `partial_result` never succeeds on any TrajectoryFuture the source can
construct — `self.lock` does not exist, so it raises `AttributeError` instead
of returning a copy of `executed`; the N-feedback scenario is likewise
impossible because `on_feedback` raises at the same point. -/
theorem partialResult_always_raises (traj : JointTrajectory) (h0 : GoalHandle) :
    TrajectoryFuture.partial_result (TrajectoryFuture.init traj)
      = .error (.attributeError .lock)
    ∧ TrajectoryFuture.partial_result (FollowJointTrajectoryClient.execute traj h0)
      = .error (.attributeError .lock)
    ∧ (TrajectoryFuture.on_feedback (FollowJointTrajectoryClient.execute traj h0)
        ⟨1, ⟨[], 0⟩⟩).res = .error (.attributeError .lock) :=
  ⟨rfl, rfl, rfl⟩

/-- C7 (against the spec-modelled `cancel`; in src `Future.cancel` is only the
abstract `raise NotImplementedError`, shown in the first conjunct): cancel
fails with `InternalError` when the correlation handle is absent or `None`,
returns `true` on an already-cancelled execution, returns `false` on an
execution that is done but not cancelled, and on a dispatched still-pending
execution forwards a cancel request and returns `true` without touching the
state — so a second consecutive cancel also returns `true`. -/
theorem trajectoryCancel_spec (traj : JointTrajectory) (h0 hg : GoalHandle)
    (ido ie ic : Option Bool) (r : Option (Option JointTrajectory))
    (ex : Option (Option Nat)) (cbs : List Nat) (ps : Option CommState)
    (tr te : Option JointTrajectory) :
    Future.cancel (FollowJointTrajectoryClient.execute traj h0)
      = ⟨.error .notImplementedError, FollowJointTrajectoryClient.execute traj h0, []⟩
    ∧ TrajectoryFuture.cancel (baseFut ido ie ic none r ex cbs ps tr te)
      = ⟨.error .internalError, baseFut ido ie ic none r ex cbs ps tr te, false⟩
    ∧ TrajectoryFuture.cancel (baseFut ido ie ic (some none) r ex cbs ps tr te)
      = ⟨.error .internalError, baseFut ido ie ic (some none) r ex cbs ps tr te, false⟩
    ∧ TrajectoryFuture.cancel
        (baseFut (some true) ie (some true) (some (some hg)) r ex cbs ps tr te)
      = ⟨.ok true, baseFut (some true) ie (some true) (some (some hg)) r ex cbs ps tr te,
          false⟩
    ∧ TrajectoryFuture.cancel
        (baseFut (some true) ie (some false) (some (some hg)) r ex cbs ps tr te)
      = ⟨.ok false, baseFut (some true) ie (some false) (some (some hg)) r ex cbs ps tr te,
          false⟩
    ∧ TrajectoryFuture.cancel (FollowJointTrajectoryClient.execute traj h0)
      = ⟨.ok true, FollowJointTrajectoryClient.execute traj h0, true⟩
    ∧ TrajectoryFuture.cancel
        ((TrajectoryFuture.cancel (FollowJointTrajectoryClient.execute traj h0)).st)
      = ⟨.ok true, FollowJointTrajectoryClient.execute traj h0, true⟩ :=
  ⟨rfl, rfl, rfl, rfl, rfl, rfl, rfl⟩

/-- C8: every call to `TrajectoryMode.execute_ros_trajectory` raises
`TypeError` (the `TrajectoryFuture()` call omits the required
`traj_requested` argument) and leaves the queue untouched, so dispatch never
makes `running()` true and no done-callback is ever attached. -/
theorem executeRosTrajectory_typeError (q : List Obj) (traj : JointTrajectory) :
    (TrajectoryMode.execute_ros_trajectory q traj).1 = .error .typeError
    ∧ (TrajectoryMode.execute_ros_trajectory q traj).2 = q
    ∧ TrajectoryMode.running (TrajectoryMode.execute_ros_trajectory q traj).2
        = TrajectoryMode.running q :=
  ⟨rfl, rfl, rfl⟩

/-- C9: a duplicated terminal DONE notification is not debounced and produces
no completion at all: the first delivery raises `AttributeError` (the
successful branch reaches `_set_done`, which needs the never-created
`self.lock`) before `_prev_state` can be updated, so the second identical
delivery runs `_on_done` again — raising again — instead of being a no-op,
and the future's done flag is never set. -/
theorem duplicateDone_not_debounced (traj : JointTrajectory) (es stx : String) :
    (TrajectoryFuture.on_transition
        (FollowJointTrajectoryClient.execute traj
          ⟨CommState.DONE, TerminalState.SUCCEEDED, ⟨0, es⟩, stx⟩)
        ⟨CommState.DONE, TerminalState.SUCCEEDED, ⟨0, es⟩, stx⟩).res
      = .error (.attributeError .lock)
    ∧ (TrajectoryFuture.on_transition
        (FollowJointTrajectoryClient.execute traj
          ⟨CommState.DONE, TerminalState.SUCCEEDED, ⟨0, es⟩, stx⟩)
        ⟨CommState.DONE, TerminalState.SUCCEEDED, ⟨0, es⟩, stx⟩).st.prev_state
      = some CommState.PENDING
    ∧ (TrajectoryFuture.on_transition
        (FollowJointTrajectoryClient.execute traj
          ⟨CommState.DONE, TerminalState.SUCCEEDED, ⟨0, es⟩, stx⟩)
        ⟨CommState.DONE, TerminalState.SUCCEEDED, ⟨0, es⟩, stx⟩).st.is_done = none
    ∧ (TrajectoryFuture.on_transition
        ((TrajectoryFuture.on_transition
          (FollowJointTrajectoryClient.execute traj
            ⟨CommState.DONE, TerminalState.SUCCEEDED, ⟨0, es⟩, stx⟩)
          ⟨CommState.DONE, TerminalState.SUCCEEDED, ⟨0, es⟩, stx⟩).st)
        ⟨CommState.DONE, TerminalState.SUCCEEDED, ⟨0, es⟩, stx⟩).res
      = .error (.attributeError .lock)
    ∧ (TrajectoryFuture.on_transition
        ((TrajectoryFuture.on_transition
          (FollowJointTrajectoryClient.execute traj
            ⟨CommState.DONE, TerminalState.SUCCEEDED, ⟨0, es⟩, stx⟩)
          ⟨CommState.DONE, TerminalState.SUCCEEDED, ⟨0, es⟩, stx⟩).st)
        ⟨CommState.DONE, TerminalState.SUCCEEDED, ⟨0, es⟩, stx⟩).st.is_done = none :=
  ⟨rfl, rfl, rfl, rfl, rfl⟩

/-- C10: a transition notification whose state differs from the previously
observed one but is not DONE only records the new state in `_prev_state`:
the executed trajectory, the stored result and exception, the done and
cancelled flags and the callback list are all left unchanged. -/
theorem onTransition_nonterminal_frame (s : Obj) (hdl : GoalHandle) (prev : CommState)
    (h1 : s.prev_state = some prev) (h2 : hdl.state ≠ prev)
    (h3 : hdl.state ≠ CommState.DONE) :
    TrajectoryFuture.on_transition s hdl
      = ⟨.ok (), { s with prev_state := some hdl.state }, []⟩
    ∧ (TrajectoryFuture.on_transition s hdl).st.traj_executed = s.traj_executed
    ∧ (TrajectoryFuture.on_transition s hdl).st.result = s.result
    ∧ (TrajectoryFuture.on_transition s hdl).st.exception = s.exception
    ∧ (TrajectoryFuture.on_transition s hdl).st.is_done = s.is_done
    ∧ (TrajectoryFuture.on_transition s hdl).st.is_cancelled = s.is_cancelled
    ∧ (TrajectoryFuture.on_transition s hdl).st.callbacks = s.callbacks
    ∧ (TrajectoryFuture.on_transition s hdl).st.prev_state = some hdl.state := by
  have e1 : TrajectoryFuture.on_transition s hdl
      = ⟨.ok (), { s with prev_state := some hdl.state }, []⟩ := by
    unfold TrajectoryFuture.on_transition
    rw [h1]
    simp [h2, h3]
  rw [e1]
  exact ⟨rfl, rfl, rfl, rfl, rfl, rfl, rfl, rfl⟩

/-- C10 witness: the frame theorem applied to a dispatched execution in the
PENDING state receiving an ACTIVE transition. -/
theorem onTransition_nonterminal_frame_witness :
    ((FollowJointTrajectoryClient.execute trajW hW).prev_state = some CommState.PENDING
      ∧ hAW.state ≠ CommState.PENDING ∧ hAW.state ≠ CommState.DONE)
    ∧ (TrajectoryFuture.on_transition (FollowJointTrajectoryClient.execute trajW hW) hAW
        = ⟨.ok (), { FollowJointTrajectoryClient.execute trajW hW with
            prev_state := some hAW.state }, []⟩
      ∧ (TrajectoryFuture.on_transition
          (FollowJointTrajectoryClient.execute trajW hW) hAW).st.traj_executed
          = (FollowJointTrajectoryClient.execute trajW hW).traj_executed
      ∧ (TrajectoryFuture.on_transition
          (FollowJointTrajectoryClient.execute trajW hW) hAW).st.result
          = (FollowJointTrajectoryClient.execute trajW hW).result
      ∧ (TrajectoryFuture.on_transition
          (FollowJointTrajectoryClient.execute trajW hW) hAW).st.exception
          = (FollowJointTrajectoryClient.execute trajW hW).exception
      ∧ (TrajectoryFuture.on_transition
          (FollowJointTrajectoryClient.execute trajW hW) hAW).st.is_done
          = (FollowJointTrajectoryClient.execute trajW hW).is_done
      ∧ (TrajectoryFuture.on_transition
          (FollowJointTrajectoryClient.execute trajW hW) hAW).st.is_cancelled
          = (FollowJointTrajectoryClient.execute trajW hW).is_cancelled
      ∧ (TrajectoryFuture.on_transition
          (FollowJointTrajectoryClient.execute trajW hW) hAW).st.callbacks
          = (FollowJointTrajectoryClient.execute trajW hW).callbacks
      ∧ (TrajectoryFuture.on_transition
          (FollowJointTrajectoryClient.execute trajW hW) hAW).st.prev_state
          = some hAW.state) :=
  ⟨⟨by decide, by decide, by decide⟩,
    onTransition_nonterminal_frame (FollowJointTrajectoryClient.execute trajW hW) hAW
      CommState.PENDING (by decide) (by decide) (by decide)⟩
